import Mathlib

/-!
Verification development for the dongometer chaos-score server
(`src/simple_app.py`).  The definitions below are a shallow embedding of
the scoring engine and the two HTTP handlers (`/api/event`, `/api/metrics`).
Wall-clock instants are modelled as rational numbers of Unix seconds;
Python floats used for scores are modelled as real numbers (the pizza
bonus contains `math.log10`).
-/

namespace Dongometer

/-- Truncation toward zero, the behaviour of Python `int()` on a float.
For non-negative arguments (all wall-clock timestamps) it agrees with the
floor. -/
def int_trunc (q : ℚ) : ℤ :=
  if q < 0 then -⌊-q⌋ else ⌊q⌋

/-- Time-of-day bonus, `calculate_chaos_score` lines 608-616: the current
hour (0-23) is mapped through a step function.  The Python guard
`0 <= hour` is vacuous for a natural-number hour. -/
def hourBonus (hour : ℕ) : ℚ :=
  if hour < 6 then 20
  else if 18 ≤ hour ∧ hour < 24 then 15
  else if 12 ≤ hour ∧ hour < 18 then 10
  else 5

/-- Pizza bonus block of `calculate_chaos_score` lines 620-626:
`if pizza_count > 0: bonus = min(pizza_count * 2, 10);
 if pizza_count > 10000: bonus += math.log10(pizza_count) * 50`.
`math.log10` is modelled by `Real.logb 10`. -/
noncomputable def pizzaBonus (pizza_count : ℕ) : ℝ :=
  if 0 < pizza_count then
    ((min (pizza_count * 2) 10 : ℕ) : ℝ) +
      (if 10000 < pizza_count then Real.logb 10 pizza_count * 50 else 0)
  else 0

/-- Read-time window count, the pattern
`sum(1 for t in window if now - t < timedelta(...))` used at lines
600-603 and 1082-1086.  `duration` is in seconds. -/
def count_since (window : List ℚ) (now duration : ℚ) : ℕ :=
  (window.filter (fun t => now - t < duration)).length

/-- Append to a `collections.deque` with `maxlen`: the new element goes to
the right and, if the capacity is exceeded, the oldest (leftmost) entries
are dropped. -/
def deqAppend (maxlen : ℕ) (w : List ℚ) (t : ℚ) : List ℚ :=
  let w2 := w ++ [t]
  if maxlen < w2.length then w2.drop (w2.length - maxlen) else w2

/-- A successfully parsed `/tmp/dongometer_lock` record:
`lock_time,duration[,status_message]` (lines 558-566).  A missing,
malformed or unreadable lock file fails open and is modelled as `none`
at the use sites. -/
structure LockRecord where
  lock_time : ℤ
  duration : ℤ
  status_message : String

/-- Result of `get_fenthouse_status` (lines 555-579).  The countdown
breakdown (hours/minutes/seconds) returned by the Python function is
display glue and is not modelled. -/
structure FenthouseStatus where
  active : Bool
  status_message : Option String

/-- `get_fenthouse_status`: the lock is active iff
`remaining = (lock_time + duration) - int(time.time()) > 0`; any parse
failure (modelled by `lock = none`) fails open to inactive. -/
def get_fenthouse_status (lock : Option LockRecord) (now : ℚ) : FenthouseStatus :=
  match lock with
  | none => ⟨false, none⟩
  | some l =>
      if 0 < l.lock_time + l.duration - int_trunc now then
        ⟨true, some l.status_message⟩
      else
        ⟨false, none⟩

/-- Parsed output of `get_indexer_metrics` (lines 36-82): message counts
from the external MongoDB indexer for the last five minutes, ten minutes
and hour.  `none` models the source being unreachable or stale. -/
structure IndexerData where
  fiveMin : ℕ
  tenMin : ℕ
  hour : ℕ

/-- The module-level `_pizza_cache = {'count': None, 'timestamp': 0}`
(line 185). -/
structure PizzaCache where
  count : Option ℕ
  timestamp : ℚ

/-- One row of the sqlite `events` table; `metric_type` is declared
`TEXT NOT NULL` (lines 472-480). -/
structure EventRow where
  metric_type : String
  value : ℤ
  details : String

/-- The state visible to one request: the lock file, the wall clock, the
current hour, the reachability/content of the external MongoDB indexer,
the two in-memory deques, the pizza cache, the external pizza query
result, the local `metrics['pizza_count']` accumulator and the sqlite
event log. -/
structure AppState where
  lock : Option LockRecord
  now : ℚ
  hour : ℕ
  indexer : Option IndexerData
  chat_velocity : List ℚ
  door_events : List ℚ
  pizza_cache : PizzaCache
  pizza_external : Option ℕ
  pizza_counter : ℤ
  event_log : List EventRow

/-- `get_cached_pizza_count` (lines 187-200): return the cached count if
it is present and fresh (< 30 s); otherwise query the external source
(`get_pizza_metrics`, modelled by `ext`), updating the cache on success;
otherwise return the stale cached value or zero
(`return _pizza_cache['count'] or 0`).  Returns the count and the new
cache state. -/
def get_cached_pizza_count (c : PizzaCache) (now : ℚ) (ext : Option ℕ) :
    ℕ × PizzaCache :=
  match c.count with
  | some v =>
      if now - c.timestamp < 30 then (v, c)
      else
        match ext with
        | some n => (n, ⟨some n, now⟩)
        | none => (v, c)
  | none =>
      match ext with
      | some n => (n, ⟨some n, now⟩)
      | none => (0, c)

/-- The `recent_msgs` value of `calculate_chaos_score` lines 594-601:
the indexer's five-minute count when the indexer answered, otherwise the
in-memory chat window filtered to the last five minutes. -/
def recent_messages (st : AppState) : ℕ :=
  match st.indexer with
  | some d => d.fiveMin
  | none => count_since st.chat_velocity st.now 300

/-- The `recent_doors` value of `calculate_chaos_score` lines 594-603:
half the indexer's ten-minute count (floor division) when the indexer
answered, otherwise the in-memory door window filtered to the last ten
minutes. -/
def recent_doors (st : AppState) : ℕ :=
  match st.indexer with
  | some d => d.tenMin / 2
  | none => count_since st.door_events st.now 600

/-- The pizza count the scoring path resolves (line 619). -/
def resolved_pizza (st : AppState) : ℕ :=
  (get_cached_pizza_count st.pizza_cache st.now st.pizza_external).1

/-- `calculate_chaos_score` (lines 581-629).  Returns the score together
with the pizza-cache state after the call (the Python function mutates
the module-level cache).  If the Fenthouse lock is active the constant
`42069.0` is returned immediately and nothing else runs. -/
noncomputable def calculate_chaos_score (st : AppState) : ℝ × PizzaCache :=
  if (get_fenthouse_status st.lock st.now).active then
    (42069, st.pizza_cache)
  else
    let pc := get_cached_pizza_count st.pizza_cache st.now st.pizza_external
    ((recent_messages st * 2 + recent_doors st * 5 : ℕ) +
        (hourBonus st.hour : ℝ) + pizzaBonus pc.1,
      pc.2)

/-- The ten status bands of `serve_metrics` lines 1094-1114, in source
order. -/
inductive StatusBand
  | calm
  | active
  | chaotic
  | demonic
  | apocalypse
  | trueApocalypse
  | cosmicHorror
  | multiverseCollapse
  | heatDeath
  | fenthouse
deriving DecidableEq

/-- The threshold chain of `serve_metrics` lines 1094-1114: each band is
entered by an inclusive `<=` upper bound, the heat-death band by a strict
`< 42069`, everything else is the fenthouse band. -/
noncomputable def status_band (score : ℝ) : StatusBand :=
  if score ≤ 20 then .calm
  else if score ≤ 40 then .active
  else if score ≤ 60 then .chaotic
  else if score ≤ 80 then .demonic
  else if score ≤ 100 then .apocalypse
  else if score ≤ 200 then .trueApocalypse
  else if score ≤ 500 then .cosmicHorror
  else if score ≤ 1000 then .multiverseCollapse
  else if score < 42069 then .heatDeath
  else .fenthouse

/-- The `status` field served by `/api/metrics`: the lock's message while
the Fenthouse lock is active, otherwise a threshold band. -/
inductive MetricsStatus
  | locked (msg : String)
  | band (b : StatusBand)
deriving DecidableEq

/-- The fields of the `/api/metrics` JSON response that the scoring core
produces (lines 1126-1144). `chaos_score` is the exact value the handler
computes and feeds to status mapping; the HTTP layer serialises it as
`round(score, 1)`, a display-only rounding that is not modelled. -/
structure MetricsResponse where
  chaos_score : ℝ
  chat_velocity_5min : ℕ
  chat_velocity_1hour : ℕ
  door_events_10min : ℕ
  pizza_count : ℕ
  status : MetricsStatus

/-- `serve_metrics` (lines 1062-1145): compute the engine score, read the
lock, read the indexer counts (falling back to the deques), resolve the
pizza count a second time, double the score when `pizza_count > 10000`,
and map to a status unless the lock supplied one.  Returns the response
and the final pizza-cache state. -/
noncomputable def serve_metrics (st : AppState) : MetricsResponse × PizzaCache :=
  let cc := calculate_chaos_score st
  let fenthouse := get_fenthouse_status st.lock st.now
  let status0 : Option String :=
    if fenthouse.active then fenthouse.status_message else none
  let chat_5m : ℕ :=
    match st.indexer with
    | some d => d.fiveMin
    | none => count_since st.chat_velocity st.now 300
  let chat_1h : ℕ :=
    match st.indexer with
    | some d => d.hour
    | none => st.chat_velocity.length
  let door_10m : ℕ :=
    match st.indexer with
    | some d => d.tenMin / 2
    | none => count_since st.door_events st.now 600
  let pz := get_cached_pizza_count cc.2 st.now st.pizza_external
  let score : ℝ := if 10000 < pz.1 then cc.1 * 2 else cc.1
  let status : MetricsStatus :=
    match status0 with
    | some m => .locked m
    | none => .band (status_band score)
  (⟨score, chat_5m, chat_1h, door_10m, pz.1, status⟩, pz.2)

/-- The parsed JSON body of a `POST /api/event` request: Python
`data.get('type')`, `data.get('value', 1)`, `data.get('details', '')`. -/
structure EventRequest where
  type : Option String
  value : Option ℤ
  details : Option String

/-- Outcome of a `POST /api/event` request as seen by the client:
`send_error(400)` for undecodable JSON, a success JSON carrying a fresh
engine score, or an unhandled exception escaping the handler (no clean
HTTP error is produced in that case). -/
inductive PostResponse
  | badRequest
  | ok (chaos_score : ℝ)
  | serverError

/-- `INSERT INTO events (metric_type, value, details) VALUES (?, ?, ?)`
(lines 1164-1171).  `metric_type` is `TEXT NOT NULL`, so inserting a
missing type raises `sqlite3.IntegrityError`, modelled as an error. -/
def db_insert (log : List EventRow) (typ : Option String) (value : ℤ)
    (details : String) : Except Unit (List EventRow) :=
  match typ with
  | none => .error ()
  | some t => .ok (log ++ [⟨t, value, details⟩])

/-- The live-counter update chain of `handle_event` (lines 1153-1162):
one timestamp appended to the chat deque per `chat_message`;
`min(value, 100000)` timestamps appended to the door deque per
`door_open`/`door_close` (`range` of a non-positive count appends none);
`pizza` adds `value` to the local accumulator; `reset_pizza` zeroes it;
any other type changes nothing. -/
def windows_update (event_type : Option String) (value : ℤ) (st : AppState) :
    AppState :=
  if event_type = some "chat_message" then
    { st with chat_velocity := deqAppend 100 st.chat_velocity st.now }
  else if event_type = some "door_open" ∨ event_type = some "door_close" then
    { st with door_events :=
        (fun w => deqAppend 50 w st.now)^[(min value 100000).toNat] st.door_events }
  else if event_type = some "pizza" then
    { st with pizza_counter := st.pizza_counter + value }
  else if event_type = some "reset_pizza" then
    { st with pizza_counter := 0 }
  else st

/-- The state after `handle_event` has updated the live counters and the
sqlite insert has succeeded (only possible when the type is present). -/
def ingested (data : EventRequest) (st : AppState) : AppState :=
  let st1 := windows_update data.type (data.value.getD 1) st
  match db_insert st1.event_log data.type (data.value.getD 1) (data.details.getD "") with
  | .error _ => st1
  | .ok log2 => { st1 with event_log := log2 }

/-- `handle_event` (lines 1147-1173): update the live counters, insert
the raw event into sqlite, then answer with a fresh
`calculate_chaos_score()` value.  A failing insert (missing type) raises
out of the handler before the engine runs: the response is an unhandled
server error and the event log is unchanged.  The third component records
whether the scoring engine was invoked. -/
noncomputable def handle_event (data : EventRequest) (st : AppState) :
    PostResponse × AppState × Bool :=
  let st1 := windows_update data.type (data.value.getD 1) st
  match db_insert st1.event_log data.type (data.value.getD 1) (data.details.getD "") with
  | .error _ => (.serverError, st1, false)
  | .ok log2 =>
      let st2 := { st1 with event_log := log2 }
      (.ok (calculate_chaos_score st2).1,
        { st2 with pizza_cache := (calculate_chaos_score st2).2 },
        true)

/-- A `POST /api/event` body as the facade sees it: either JSON that
fails to decode, or a decoded object. -/
inductive PostBody
  | malformed
  | parsed (data : EventRequest)

/-- `do_POST` (lines 672-683): undecodable JSON is answered with
`send_error(400)` and `handle_event` is never called; decoded bodies are
passed to `handle_event` unconditionally (no type validation happens at
the facade). -/
noncomputable def do_POST (body : PostBody) (st : AppState) :
    PostResponse × AppState × Bool :=
  match body with
  | .malformed => (.badRequest, st, false)
  | .parsed data => handle_event data st

/-! ## Helper lemmas -/

/-- Python `int()` agrees with the floor on the non-negative wall clock. -/
lemma int_trunc_eq_floor (q : ℚ) (h : 0 ≤ q) : int_trunc q = ⌊q⌋ := by
  unfold int_trunc
  rw [if_neg (not_lt.mpr h)]

/-- A second `get_cached_pizza_count` call at the same instant, on the
cache state the first call left behind, gives the same answer and the
same cache: the 30-second TTL makes the resolution stable within one
request. -/
lemma get_cached_pizza_count_stable (c : PizzaCache) (now : ℚ) (ext : Option ℕ) :
    get_cached_pizza_count (get_cached_pizza_count c now ext).2 now ext =
      get_cached_pizza_count c now ext := by
  obtain ⟨cnt, ts⟩ := c
  cases cnt with
  | none =>
      cases ext with
      | none => rfl
      | some n =>
          have h1 : get_cached_pizza_count ⟨none, ts⟩ now (some n) = (n, ⟨some n, now⟩) := rfl
          rw [h1]
          simp only [get_cached_pizza_count]
          rw [if_pos (by norm_num : now - now < 30)]
  | some v =>
      cases ext with
      | none =>
          have h1 : get_cached_pizza_count ⟨some v, ts⟩ now none = (v, ⟨some v, ts⟩) := by
            simp only [get_cached_pizza_count]
            split_ifs <;> rfl
          rw [h1, h1]
      | some n =>
          by_cases h : now - ts < 30
          · have h1 : get_cached_pizza_count ⟨some v, ts⟩ now (some n) = (v, ⟨some v, ts⟩) := by
              simp only [get_cached_pizza_count]
              rw [if_pos h]
            rw [h1, h1]
          · have h1 : get_cached_pizza_count ⟨some v, ts⟩ now (some n) = (n, ⟨some n, now⟩) := by
              simp only [get_cached_pizza_count]
              rw [if_neg h]
            rw [h1]
            simp only [get_cached_pizza_count]
            rw [if_pos (by norm_num : now - now < 30)]

/-- Reduction of `get_fenthouse_status` on a parsed lock record. -/
lemma get_fenthouse_status_some (l : LockRecord) (now : ℚ) :
    get_fenthouse_status (some l) now =
      if 0 < l.lock_time + l.duration - int_trunc now then
        ⟨true, some l.status_message⟩
      else ⟨false, none⟩ := rfl

/-- With the Fenthouse lock inactive, `calculate_chaos_score` takes the
normal path: weighted recent counts, hour bonus, pizza bonus, and the
cache state left by the pizza resolution. -/
lemma calculate_chaos_score_inactive (st : AppState)
    (h : (get_fenthouse_status st.lock st.now).active = false) :
    calculate_chaos_score st =
      (((recent_messages st * 2 + recent_doors st * 5 : ℕ) : ℝ) +
          (hourBonus st.hour : ℝ) + pizzaBonus (resolved_pizza st),
        (get_cached_pizza_count st.pizza_cache st.now st.pizza_external).2) := by
  unfold calculate_chaos_score
  rw [if_neg (by simp [h])]
  rfl

/-- With the Fenthouse lock active, `calculate_chaos_score` returns the
sentinel immediately and leaves the pizza cache untouched. -/
lemma calculate_chaos_score_active (st : AppState)
    (h : (get_fenthouse_status st.lock st.now).active = true) :
    calculate_chaos_score st = (42069, st.pizza_cache) := by
  unfold calculate_chaos_score
  rw [if_pos (by simp [h])]

/-- Unfolding of `serve_metrics` with the Fenthouse lock inactive: the
pizza count it serves is the one the engine resolved, the score is the
engine score doubled exactly when that count exceeds 10000, and the
status is a threshold band of the served score. -/
lemma serve_metrics_inactive (st : AppState)
    (h : (get_fenthouse_status st.lock st.now).active = false) :
    (serve_metrics st).1.pizza_count = resolved_pizza st ∧
    (serve_metrics st).1.chaos_score =
      (if 10000 < resolved_pizza st then (calculate_chaos_score st).1 * 2
       else (calculate_chaos_score st).1) ∧
    (serve_metrics st).1.status =
      .band (status_band (serve_metrics st).1.chaos_score) := by
  have hcache : (calculate_chaos_score st).2 =
      (get_cached_pizza_count st.pizza_cache st.now st.pizza_external).2 := by
    rw [calculate_chaos_score_inactive st h]
  have hstable :
      (get_cached_pizza_count (calculate_chaos_score st).2 st.now st.pizza_external).1 =
        resolved_pizza st := by
    rw [hcache]
    have := get_cached_pizza_count_stable st.pizza_cache st.now st.pizza_external
    rw [this]
    rfl
  refine ⟨?_, ?_, ?_⟩
  · show (get_cached_pizza_count (calculate_chaos_score st).2 st.now st.pizza_external).1 =
      resolved_pizza st
    exact hstable
  · show (if 10000 <
        (get_cached_pizza_count (calculate_chaos_score st).2 st.now st.pizza_external).1
        then (calculate_chaos_score st).1 * 2 else (calculate_chaos_score st).1) = _
    rw [hstable]
  · show (match (if (get_fenthouse_status st.lock st.now).active then
          (get_fenthouse_status st.lock st.now).status_message else none) with
        | some m => MetricsStatus.locked m
        | none => MetricsStatus.band (status_band _)) = _
    rw [h]
    simp only [Bool.false_eq_true, if_false]
    rfl

/-- Unfolding of the `status` field of `serve_metrics` with the lock
active: the lock's message wins. -/
lemma serve_metrics_status_active (st : AppState) (m : String)
    (h : (get_fenthouse_status st.lock st.now).active = true)
    (hm : (get_fenthouse_status st.lock st.now).status_message = some m) :
    (serve_metrics st).1.status = .locked m := by
  show (match (if (get_fenthouse_status st.lock st.now).active then
        (get_fenthouse_status st.lock st.now).status_message else none) with
      | some m => MetricsStatus.locked m
      | none => MetricsStatus.band (status_band _)) = _
  rw [h, if_pos rfl, hm]

/-! ## Claims -/

/-- C7: `count_since` — the read-time count over one category's retained
window timestamps — returns exactly the number of retained timestamps
newer than `now - duration`; it is a natural number (hence non-negative),
zero on an empty window, and with no new events it is non-increasing as
the query time advances. -/
theorem c7_count_since_spec (w : List ℚ) (now now2 dur : ℚ) (h : now ≤ now2) :
    count_since w now dur = (w.filter (fun t => now - dur < t)).length ∧
    count_since ([] : List ℚ) now dur = 0 ∧
    count_since w now2 dur ≤ count_since w now dur := by
  refine ⟨?_, rfl, ?_⟩
  · unfold count_since
    congr 1
    apply List.filter_congr
    intro t _
    simp only [decide_eq_decide]
    exact sub_lt_comm
  · unfold count_since
    rw [← List.countP_eq_length_filter, ← List.countP_eq_length_filter]
    apply List.countP_mono_left
    intro t _ ht
    simp only [decide_eq_true_eq] at ht ⊢
    linarith

/-- C7 witness: a three-event window counted at two instants. -/
theorem c7_count_since_spec_witness :
    count_since [(5 : ℚ), 100, 200] 210 60 =
      (([(5 : ℚ), 100, 200]).filter (fun t => 210 - 60 < t)).length ∧
    count_since [(5 : ℚ), 100, 200] 250 60 ≤ count_since [(5 : ℚ), 100, 200] 210 60 := by
  have h := c7_count_since_spec [(5 : ℚ), 100, 200] 210 250 60 (by norm_num)
  exact ⟨h.1, h.2.2⟩

/-- C5: the pizza bonus is non-decreasing across the counts 0, 1, 5, 10,
10001, 100000, with `bonus 0 = 0`, `bonus 5 = 10` (the capped base), and
`bonus 10001 > 60` (base 10 plus the `log10` scaling bonus). -/
theorem c5_pizza_bonus_monotone :
    pizzaBonus 0 = 0 ∧ pizzaBonus 5 = 10 ∧ 60 < pizzaBonus 10001 ∧
    pizzaBonus 0 ≤ pizzaBonus 1 ∧ pizzaBonus 1 ≤ pizzaBonus 5 ∧
    pizzaBonus 5 ≤ pizzaBonus 10 ∧ pizzaBonus 10 ≤ pizzaBonus 10001 ∧
    pizzaBonus 10001 ≤ pizzaBonus 100000 := by
  have e0 : pizzaBonus 0 = 0 := by norm_num [pizzaBonus]
  have e1 : pizzaBonus 1 = 2 := by norm_num [pizzaBonus]
  have e5 : pizzaBonus 5 = 10 := by norm_num [pizzaBonus]
  have e10 : pizzaBonus 10 = 10 := by norm_num [pizzaBonus]
  have e10001 : pizzaBonus 10001 = 10 + Real.logb 10 10001 * 50 := by
    norm_num [pizzaBonus]
  have e100000 : pizzaBonus 100000 = 10 + Real.logb 10 100000 * 50 := by
    norm_num [pizzaBonus]
  have hlog1 : (1 : ℝ) < Real.logb 10 10001 := by
    rw [Real.lt_logb_iff_rpow_lt (by norm_num) (by norm_num), Real.rpow_one]
    norm_num
  have hmono : Real.logb 10 10001 ≤ Real.logb 10 100000 :=
    Real.logb_le_logb_of_le (by norm_num) (by norm_num) (by norm_num)
  exact ⟨e0, e5, by rw [e10001]; linarith, by rw [e0, e1]; linarith,
    by rw [e1, e5]; linarith, by rw [e5, e10], by rw [e10, e10001]; linarith,
    by rw [e10001, e100000]; linarith⟩

/-- C4: `/api/metrics` maps the final score to its status label through
the ascending, non-overlapping, inclusive-upper-bound threshold chain
(strict `< 42069` for the heat-death tier, everything above it the
fenthouse tier); whenever the lock is inactive the served status is
exactly the band of the served score. -/
theorem c4_status_bands (st : AppState) (s : ℝ)
    (hact : (get_fenthouse_status st.lock st.now).active = false) :
    (serve_metrics st).1.status = .band (status_band (serve_metrics st).1.chaos_score) ∧
    (s ≤ 20 → status_band s = .calm) ∧
    (20 < s → s ≤ 40 → status_band s = .active) ∧
    (40 < s → s ≤ 60 → status_band s = .chaotic) ∧
    (60 < s → s ≤ 80 → status_band s = .demonic) ∧
    (80 < s → s ≤ 100 → status_band s = .apocalypse) ∧
    (100 < s → s ≤ 200 → status_band s = .trueApocalypse) ∧
    (200 < s → s ≤ 500 → status_band s = .cosmicHorror) ∧
    (500 < s → s ≤ 1000 → status_band s = .multiverseCollapse) ∧
    (1000 < s → s < 42069 → status_band s = .heatDeath) ∧
    (42069 ≤ s → status_band s = .fenthouse) := by
  refine ⟨(serve_metrics_inactive st hact).2.2, ?_, ?_, ?_, ?_, ?_, ?_, ?_, ?_, ?_, ?_⟩ <;>
    intros <;> unfold status_band
  · rw [if_pos (by linarith)]
  · rw [if_neg (by linarith), if_pos (by linarith)]
  · rw [if_neg (by linarith), if_neg (by linarith), if_pos (by linarith)]
  · rw [if_neg (by linarith), if_neg (by linarith), if_neg (by linarith),
      if_pos (by linarith)]
  · rw [if_neg (by linarith), if_neg (by linarith), if_neg (by linarith),
      if_neg (by linarith), if_pos (by linarith)]
  · rw [if_neg (by linarith), if_neg (by linarith), if_neg (by linarith),
      if_neg (by linarith), if_neg (by linarith), if_pos (by linarith)]
  · rw [if_neg (by linarith), if_neg (by linarith), if_neg (by linarith),
      if_neg (by linarith), if_neg (by linarith), if_neg (by linarith),
      if_pos (by linarith)]
  · rw [if_neg (by linarith), if_neg (by linarith), if_neg (by linarith),
      if_neg (by linarith), if_neg (by linarith), if_neg (by linarith),
      if_neg (by linarith), if_pos (by linarith)]
  · rw [if_neg (by linarith), if_neg (by linarith), if_neg (by linarith),
      if_neg (by linarith), if_neg (by linarith), if_neg (by linarith),
      if_neg (by linarith), if_neg (by linarith), if_pos (by linarith)]
  · rw [if_neg (by linarith), if_neg (by linarith), if_neg (by linarith),
      if_neg (by linarith), if_neg (by linarith), if_neg (by linarith),
      if_neg (by linarith), if_neg (by linarith), if_neg (by linarith)]

/-- C4 witness: the boundary pair — a score of exactly 20.0 is calm and
20.01 is active. -/
theorem c4_status_bands_witness :
    status_band 20 = StatusBand.calm ∧ status_band 20.01 = StatusBand.active := by
  constructor
  · exact (c4_status_bands ⟨none, 0, 0, none, [], [], ⟨none, 0⟩, none, 0, []⟩
      20 rfl).2.1 (by norm_num)
  · exact (c4_status_bands ⟨none, 0, 0, none, [], [], ⟨none, 0⟩, none, 0, []⟩
      20.01 rfl).2.2.1 (by norm_num) (by norm_num)

/-- C2: a lock activated at `t0` with duration 60 s keeps the engine at
the sentinel 42069 (and `/api/metrics` at the lock's status message) for
every query instant in `[t0, t0 + 60)`, and from `t0 + 60` on the engine
reverts to the normal computation. -/
theorem c2_override_lock (st : AppState) (l : LockRecord)
    (hl : st.lock = some l) (h0 : 0 ≤ l.lock_time) (hd : l.duration = 60) :
    ((l.lock_time : ℚ) ≤ st.now → st.now < l.lock_time + 60 →
      (get_fenthouse_status st.lock st.now).active = true ∧
      (calculate_chaos_score st).1 = 42069 ∧
      (serve_metrics st).1.status = .locked l.status_message) ∧
    ((l.lock_time : ℚ) + 60 ≤ st.now →
      (get_fenthouse_status st.lock st.now).active = false ∧
      (calculate_chaos_score st).1 =
        ((recent_messages st * 2 + recent_doors st * 5 : ℕ) : ℝ) +
          (hourBonus st.hour : ℝ) + pizzaBonus (resolved_pizza st)) := by
  constructor
  · intro hlo hhi
    have hnow : (0 : ℚ) ≤ st.now := le_trans (by exact_mod_cast h0) hlo
    have htr : int_trunc st.now = ⌊st.now⌋ := int_trunc_eq_floor st.now hnow
    have hflt : ⌊st.now⌋ < l.lock_time + 60 := by
      rw [Int.floor_lt]
      push_cast
      linarith
    have hcond : 0 < l.lock_time + l.duration - int_trunc st.now := by
      rw [htr, hd]
      omega
    have hact : (get_fenthouse_status st.lock st.now).active = true := by
      rw [hl, get_fenthouse_status_some, if_pos hcond]
    have hmsg : (get_fenthouse_status st.lock st.now).status_message =
        some l.status_message := by
      rw [hl, get_fenthouse_status_some, if_pos hcond]
    refine ⟨hact, ?_, serve_metrics_status_active st l.status_message hact hmsg⟩
    rw [calculate_chaos_score_active st hact]
  · intro hge
    have hnow : (0 : ℚ) ≤ st.now := le_trans (by positivity) hge
    have htr : int_trunc st.now = ⌊st.now⌋ := int_trunc_eq_floor st.now hnow
    have hfge : l.lock_time + 60 ≤ ⌊st.now⌋ := by
      rw [Int.le_floor]
      push_cast
      linarith
    have hcond : ¬(0 < l.lock_time + l.duration - int_trunc st.now) := by
      rw [htr, hd]
      omega
    have hact : (get_fenthouse_status st.lock st.now).active = false := by
      rw [hl, get_fenthouse_status_some, if_neg hcond]
    refine ⟨hact, ?_⟩
    rw [calculate_chaos_score_inactive st hact]

/-- C2 witness: a lock written at second 100 with duration 60, queried at
second 130.5 (sentinel and message) and at second 160 (normal path). -/
theorem c2_override_lock_witness :
    (calculate_chaos_score
        ⟨some ⟨100, 60, "FENTHOUSE"⟩, 130.5, 8, none, [], [], ⟨none, 0⟩, none, 0, []⟩).1 =
      42069 ∧
    (serve_metrics
        ⟨some ⟨100, 60, "FENTHOUSE"⟩, 130.5, 8, none, [], [], ⟨none, 0⟩, none, 0, []⟩).1.status =
      .locked "FENTHOUSE" ∧
    (get_fenthouse_status
        (some ⟨100, 60, "FENTHOUSE"⟩ : Option LockRecord) (160 : ℚ)).active = false := by
  have ha := (c2_override_lock
      ⟨some ⟨100, 60, "FENTHOUSE"⟩, 130.5, 8, none, [], [], ⟨none, 0⟩, none, 0, []⟩
      ⟨100, 60, "FENTHOUSE"⟩ rfl (by norm_num) rfl).1 (by norm_num) (by norm_num)
  have hb := (c2_override_lock
      ⟨some ⟨100, 60, "FENTHOUSE"⟩, 160, 8, none, [], [], ⟨none, 0⟩, none, 0, []⟩
      ⟨100, 60, "FENTHOUSE"⟩ rfl (by norm_num) rfl).2 (by norm_num)
  exact ⟨ha.2.1, ha.2.2, hb.1⟩

/-- C1: with the lock inactive the engine score is exactly
`recent_messages * 2 + recent_doors * 5` plus the hour step bonus
(+20 on [0,6), +15 on [18,24), +10 on [12,18), +5 otherwise) plus the
pizza bonus; and the score is uncapped — it exceeds every bound on
states with enough recent messages alone, and likewise with enough
recent door events alone. -/
theorem c1_chaos_formula :
    (∀ st : AppState, (get_fenthouse_status st.lock st.now).active = false →
      (calculate_chaos_score st).1 =
        ((recent_messages st * 2 + recent_doors st * 5 : ℕ) : ℝ) +
          (hourBonus st.hour : ℝ) + pizzaBonus (resolved_pizza st)) ∧
    (∀ h : ℕ, (h < 6 → hourBonus h = 20) ∧ (18 ≤ h → h < 24 → hourBonus h = 15) ∧
      (12 ≤ h → h < 18 → hourBonus h = 10) ∧ (6 ≤ h → h < 12 → hourBonus h = 5)) ∧
    (∀ B : ℝ, ∃ st : AppState,
      (get_fenthouse_status st.lock st.now).active = false ∧
      recent_doors st = 0 ∧ B < (calculate_chaos_score st).1) ∧
    (∀ B : ℝ, ∃ st : AppState,
      (get_fenthouse_status st.lock st.now).active = false ∧
      recent_messages st = 0 ∧ B < (calculate_chaos_score st).1) := by
  have hbase : ∀ m d : ℕ, ∀ B : ℝ,
      (get_fenthouse_status
        (⟨none, 0, 8, some ⟨m, d, 0⟩, [], [], ⟨none, 0⟩, none, 0, []⟩ : AppState).lock
        (⟨none, 0, 8, some ⟨m, d, 0⟩, [], [], ⟨none, 0⟩, none, 0, []⟩ : AppState).now).active
          = false ∧
      (calculate_chaos_score
        (⟨none, 0, 8, some ⟨m, d, 0⟩, [], [], ⟨none, 0⟩, none, 0, []⟩ : AppState)).1 =
        (m : ℝ) * 2 + (d / 2 : ℕ) * 5 + 5 := by
    intro m d B
    refine ⟨rfl, ?_⟩
    rw [calculate_chaos_score_inactive
      (⟨none, 0, 8, some ⟨m, d, 0⟩, [], [], ⟨none, 0⟩, none, 0, []⟩ : AppState) rfl]
    have hr : recent_messages
        (⟨none, 0, 8, some ⟨m, d, 0⟩, [], [], ⟨none, 0⟩, none, 0, []⟩ : AppState) = m := rfl
    have hdo : recent_doors
        (⟨none, 0, 8, some ⟨m, d, 0⟩, [], [], ⟨none, 0⟩, none, 0, []⟩ : AppState) = d / 2 := rfl
    have hpz : resolved_pizza
        (⟨none, 0, 8, some ⟨m, d, 0⟩, [], [], ⟨none, 0⟩, none, 0, []⟩ : AppState) = 0 := rfl
    rw [hr, hdo, hpz]
    have : pizzaBonus 0 = 0 := by norm_num [pizzaBonus]
    rw [this]
    have : hourBonus 8 = 5 := by norm_num [hourBonus]
    rw [this]
    push_cast
    ring
  refine ⟨?_, ?_, ?_, ?_⟩
  · intro st h
    rw [calculate_chaos_score_inactive st h]
  · intro h
    refine ⟨?_, ?_, ?_, ?_⟩ <;> intros <;> unfold hourBonus
    · rw [if_pos (by omega)]
    · rw [if_neg (by omega), if_pos (by omega)]
    · rw [if_neg (by omega), if_neg (by omega), if_pos (by omega)]
    · rw [if_neg (by omega), if_neg (by omega), if_neg (by omega)]
  · intro B
    obtain ⟨m, hm⟩ := exists_nat_gt B
    refine ⟨⟨none, 0, 8, some ⟨m, 0, 0⟩, [], [], ⟨none, 0⟩, none, 0, []⟩,
      (hbase m 0 B).1, by simp [recent_doors], ?_⟩
    rw [(hbase m 0 B).2]
    push_cast
    have hm0 : (0 : ℝ) ≤ (m : ℝ) := by positivity
    linarith
  · intro B
    obtain ⟨d, hd⟩ := exists_nat_gt B
    refine ⟨⟨none, 0, 8, some ⟨0, 2 * d, 0⟩, [], [], ⟨none, 0⟩, none, 0, []⟩,
      (hbase 0 (2 * d) B).1, rfl, ?_⟩
    rw [(hbase 0 (2 * d) B).2]
    have h2 : (2 * d) / 2 = d := by omega
    rw [h2]
    push_cast
    have hd0 : (0 : ℝ) ≤ (d : ℝ) := by positivity
    linarith

/-- C1 witness: an idle small-hours state — no recent activity, hour 8,
no pizzas — scores exactly the morning bonus 5. -/
theorem c1_chaos_formula_witness :
    (calculate_chaos_score
      (⟨none, 0, 8, none, [], [], ⟨none, 0⟩, none, 0, []⟩ : AppState)).1 = 5 := by
  have h := c1_chaos_formula.1
    ⟨none, 0, 8, none, [], [], ⟨none, 0⟩, none, 0, []⟩ rfl
  rw [h]
  have h1 : recent_messages (⟨none, 0, 8, none, [], [], ⟨none, 0⟩, none, 0, []⟩ : AppState)
      = 0 := rfl
  have h2 : recent_doors (⟨none, 0, 8, none, [], [], ⟨none, 0⟩, none, 0, []⟩ : AppState)
      = 0 := rfl
  have h3 : resolved_pizza (⟨none, 0, 8, none, [], [], ⟨none, 0⟩, none, 0, []⟩ : AppState)
      = 0 := rfl
  rw [h1, h2, h3]
  norm_num [pizzaBonus, hourBonus]

/-- C6 counterexample: with the external pizza source unreachable and an
empty cache, scoring resolves `pizza_count` to 0 even though the local
PizzaCounter accumulator (`metrics['pizza_count']`) holds 7 — the
fallback is the external cache-or-zero, never the local accumulator. -/
theorem c6_counterexample :
    resolved_pizza
        (⟨none, 1000, 8, none, [], [], ⟨none, 0⟩, none, 7, []⟩ : AppState) = 0 ∧
    (⟨none, 1000, 8, none, [], [], ⟨none, 0⟩, none, 7, []⟩ : AppState).pizza_counter = 7 ∧
    ((resolved_pizza
        (⟨none, 1000, 8, none, [], [], ⟨none, 0⟩, none, 7, []⟩ : AppState) : ℤ) ≠
      (⟨none, 1000, 8, none, [], [], ⟨none, 0⟩, none, 7, []⟩ : AppState).pizza_counter) := by
  refine ⟨rfl, rfl, by decide⟩

/-- C6 amended: scoring prefers the external metrics source and falls
back to the in-memory rolling windows for message/door counts; the pizza
count is resolved from the external source's 30-second cache — fresh
cache value, else a fresh external query, else the last cached value or
zero.  (The local PizzaCounter accumulator is never consulted, see the
counterexample.) -/
theorem c6_source_preference (st : AppState) (d : IndexerData) (n v : ℕ) :
    (st.indexer = some d →
      recent_messages st = d.fiveMin ∧ recent_doors st = d.tenMin / 2) ∧
    (st.indexer = none →
      recent_messages st = count_since st.chat_velocity st.now 300 ∧
      recent_doors st = count_since st.door_events st.now 600) ∧
    (st.pizza_cache.count = some v → st.now - st.pizza_cache.timestamp < 30 →
      resolved_pizza st = v) ∧
    (st.pizza_cache.count = some v → ¬(st.now - st.pizza_cache.timestamp < 30) →
      st.pizza_external = some n → resolved_pizza st = n) ∧
    (st.pizza_cache.count = some v → ¬(st.now - st.pizza_cache.timestamp < 30) →
      st.pizza_external = none → resolved_pizza st = v) ∧
    (st.pizza_cache.count = none → st.pizza_external = some n →
      resolved_pizza st = n) ∧
    (st.pizza_cache.count = none → st.pizza_external = none →
      resolved_pizza st = 0) := by
  refine ⟨?_, ?_, ?_, ?_, ?_, ?_, ?_⟩
  · intro h
    constructor <;> simp [recent_messages, recent_doors, h]
  · intro h
    constructor <;> simp [recent_messages, recent_doors, h]
  · intro h1 h2
    simp [resolved_pizza, get_cached_pizza_count, h1, h2]
  · intro h1 h2 h3
    simp [resolved_pizza, get_cached_pizza_count, h1, h2, h3]
  · intro h1 h2 h3
    simp [resolved_pizza, get_cached_pizza_count, h1, h2, h3]
  · intro h1 h2
    simp [resolved_pizza, get_cached_pizza_count, h1, h2]
  · intro h1 h2
    simp [resolved_pizza, get_cached_pizza_count, h1, h2]

/-- C6 witness: an empty cache with the external source answering 5
resolves to 5. -/
theorem c6_source_preference_witness :
    resolved_pizza
      (⟨none, 1000, 8, none, [], [], ⟨none, 0⟩, some 5, 0, []⟩ : AppState) = 5 :=
  (c6_source_preference
    ⟨none, 1000, 8, none, [], [], ⟨none, 0⟩, some 5, 0, []⟩
    ⟨0, 0, 0⟩ 5 0).2.2.2.2.2.1 rfl rfl

/-- C3: when the resolved pizza count exceeds 10000 and the lock is
inactive, the score `/api/metrics` uses for status mapping is twice the
engine score, and the engine score already contains the additive
`log10(pizza_count) * 50` scaling bonus — the two pizzapocalypse effects
compose. -/
theorem c3_pizzapocalypse (st : AppState)
    (hact : (get_fenthouse_status st.lock st.now).active = false)
    (hp : 10000 < resolved_pizza st) :
    (serve_metrics st).1.chaos_score =
      2 * (((recent_messages st * 2 + recent_doors st * 5 : ℕ) : ℝ) +
        (hourBonus st.hour : ℝ) +
        (((min (resolved_pizza st * 2) 10 : ℕ) : ℝ) +
          Real.logb 10 (resolved_pizza st) * 50)) := by
  have hs := (serve_metrics_inactive st hact).2.1
  have h1 : (calculate_chaos_score st).1 =
      ((recent_messages st * 2 + recent_doors st * 5 : ℕ) : ℝ) +
        (hourBonus st.hour : ℝ) + pizzaBonus (resolved_pizza st) := by
    rw [calculate_chaos_score_inactive st hact]
  have hpz : pizzaBonus (resolved_pizza st) =
      ((min (resolved_pizza st * 2) 10 : ℕ) : ℝ) +
        Real.logb 10 (resolved_pizza st) * 50 := by
    unfold pizzaBonus
    rw [if_pos (by omega), if_pos hp]
  rw [hs, if_pos hp, h1, hpz]
  ring

/-- C3 witness: fifteen thousand pizzas, an otherwise idle afternoon
state — the served score is `2 * (5 + 10 + log10(15000) * 50)`. -/
theorem c3_pizzapocalypse_witness :
    (serve_metrics
      (⟨none, 1000, 8, some ⟨0, 0, 0⟩, [], [], ⟨none, 0⟩, some 15000, 0, []⟩ :
        AppState)).1.chaos_score =
      30 + Real.logb 10 15000 * 100 := by
  have h := c3_pizzapocalypse
    ⟨none, 1000, 8, some ⟨0, 0, 0⟩, [], [], ⟨none, 0⟩, some 15000, 0, []⟩
    rfl (by decide)
  rw [h]
  have h1 : recent_messages
      (⟨none, 1000, 8, some ⟨0, 0, 0⟩, [], [], ⟨none, 0⟩, some 15000, 0, []⟩ :
        AppState) = 0 := rfl
  have h2 : recent_doors
      (⟨none, 1000, 8, some ⟨0, 0, 0⟩, [], [], ⟨none, 0⟩, some 15000, 0, []⟩ :
        AppState) = 0 := by
    simp [recent_doors]
  have h3 : resolved_pizza
      (⟨none, 1000, 8, some ⟨0, 0, 0⟩, [], [], ⟨none, 0⟩, some 15000, 0, []⟩ :
        AppState) = 15000 := rfl
  rw [h1, h2, h3]
  norm_num [hourBonus]
  ring

/-- C8 counterexample: a decoded body with no `type` field is not
rejected at the facade with a client error — `do_POST` passes it to
`handle_event` and the request dies on the event-store NOT NULL
constraint as an unhandled server error, not a 400. -/
theorem c8_counterexample :
    (do_POST (.parsed ⟨none, some 1, some ""⟩)
        (⟨none, 1000, 8, none, [], [], ⟨none, 0⟩, none, 0, []⟩ : AppState)).1 =
      .serverError ∧
    (do_POST (.parsed ⟨none, some 1, some ""⟩)
        (⟨none, 1000, 8, none, [], [], ⟨none, 0⟩, none, 0, []⟩ : AppState)).1 ≠
      .badRequest := by
  refine ⟨rfl, ?_⟩
  intro h
  rw [show (do_POST (.parsed ⟨none, some 1, some ""⟩)
      (⟨none, 1000, 8, none, [], [], ⟨none, 0⟩, none, 0, []⟩ : AppState)).1 =
      PostResponse.serverError from rfl] at h
  exact PostResponse.noConfusion h

/-- C8 amended: undecodable JSON is rejected at the facade with a 400
and no side effects; a decoded body with no `type` field instead reaches
`handle_event`, mutates nothing (no window, counter or event-log change)
and never reaches the scoring engine, but the request ends in an
unhandled server error from the store's NOT NULL constraint rather than
a client error. -/
theorem c8_malformed_handling (st : AppState) (v : Option ℤ) (d : Option String) :
    do_POST .malformed st = (.badRequest, st, false) ∧
    (do_POST (.parsed ⟨none, v, d⟩) st).1 = .serverError ∧
    (do_POST (.parsed ⟨none, v, d⟩) st).2.1 = st ∧
    (do_POST (.parsed ⟨none, v, d⟩) st).2.2 = false :=
  ⟨rfl, rfl, rfl, rfl⟩

/-- C9 counterexample: one `door_open` event with `value = 3` appends
three timestamps to the door window, not one — the ingestion path honors
the value field for door events. -/
theorem c9_counterexample :
    ((handle_event ⟨some "door_open", some 3, some ""⟩
        (⟨none, 1000, 8, none, [], [], ⟨none, 0⟩, none, 0, []⟩ :
          AppState)).2.1).door_events.length = 3 := by
  show ((windows_update (some "door_open") 3
      (⟨none, 1000, 8, none, [], [], ⟨none, 0⟩, none, 0, []⟩ :
        AppState)).door_events).length = 3
  decide

/-- C9 amended: per ingested event, a `chat_message` appends exactly one
timestamp to the chat window; a `door_open`/`door_close` appends
`min(value, 100000)` timestamps (none when the value is non-positive) to
the door window; every other type leaves both windows unchanged, and no
other mutation of the windows exists in the request path. -/
theorem c9_window_updates (st : AppState) (v : ℤ) (d : Option String)
    (ty : Option String) (h1 : ty ≠ some "chat_message")
    (h2 : ty ≠ some "door_open") (h3 : ty ≠ some "door_close") :
    ((handle_event ⟨some "chat_message", some v, d⟩ st).2.1).chat_velocity =
      deqAppend 100 st.chat_velocity st.now ∧
    ((handle_event ⟨some "chat_message", some v, d⟩ st).2.1).door_events =
      st.door_events ∧
    ((handle_event ⟨some "door_open", some v, d⟩ st).2.1).door_events =
      (fun w => deqAppend 50 w st.now)^[(min v 100000).toNat] st.door_events ∧
    ((handle_event ⟨some "door_close", some v, d⟩ st).2.1).door_events =
      (fun w => deqAppend 50 w st.now)^[(min v 100000).toNat] st.door_events ∧
    ((handle_event ⟨some "door_open", some v, d⟩ st).2.1).chat_velocity =
      st.chat_velocity ∧
    (windows_update ty v st).chat_velocity = st.chat_velocity ∧
    (windows_update ty v st).door_events = st.door_events := by
  have hor : ¬(ty = some "door_open" ∨ ty = some "door_close") :=
    not_or.mpr ⟨h2, h3⟩
  refine ⟨?_, ?_, ?_, ?_, ?_, ?_, ?_⟩
  · show (windows_update (some "chat_message") v st).chat_velocity = _
    unfold windows_update
    rw [if_pos rfl]
  · show (windows_update (some "chat_message") v st).door_events = _
    unfold windows_update
    rw [if_pos rfl]
  · show (windows_update (some "door_open") v st).door_events = _
    unfold windows_update
    rw [if_neg (by simp), if_pos (Or.inl rfl)]
  · show (windows_update (some "door_close") v st).door_events = _
    unfold windows_update
    rw [if_neg (by simp), if_pos (Or.inr rfl)]
  · show (windows_update (some "door_open") v st).chat_velocity = _
    unfold windows_update
    rw [if_neg (by simp), if_pos (Or.inl rfl)]
  · unfold windows_update
    rw [if_neg h1, if_neg hor]
    split_ifs <;> rfl
  · unfold windows_update
    rw [if_neg h1, if_neg hor]
    split_ifs <;> rfl

/-- C9 witness: a chat message appends one timestamp; a `pizza` event
touches neither window. -/
theorem c9_window_updates_witness :
    ((handle_event ⟨some "chat_message", some 2, none⟩
        (⟨none, 1000, 8, none, [], [], ⟨none, 0⟩, none, 0, []⟩ :
          AppState)).2.1).chat_velocity =
      deqAppend 100 [] 1000 ∧
    (windows_update (some "pizza") 2
      (⟨none, 1000, 8, none, [], [], ⟨none, 0⟩, none, 0, []⟩ :
        AppState)).door_events = [] := by
  have h := c9_window_updates
    (⟨none, 1000, 8, none, [], [], ⟨none, 0⟩, none, 0, []⟩ : AppState)
    2 none (some "pizza") (by decide) (by decide) (by decide)
  exact ⟨h.1, h.2.2.2.2.2.2⟩

/-- A successful `handle_event` (present `type`) answers with the engine
score computed over the ingested state. -/
lemma handle_event_some (data : EventRequest) (st : AppState) (t : String)
    (ht : data.type = some t) :
    (handle_event data st).1 =
      .ok ((calculate_chaos_score (ingested data st)).1) := by
  unfold handle_event ingested
  rw [ht]
  rfl

/-- C10: a successful `POST /api/event` answers with exactly half the
`chaos_score` that `GET /api/metrics` would report over the resulting
state whenever that state has the lock inactive and a resolved pizza
count above 10000 — the pizzapocalypse doubling lives only in the
metrics endpoint, so the POST response omits it. -/
theorem c10_post_half (st : AppState) (data : EventRequest) (t : String)
    (ht : data.type = some t)
    (hact : (get_fenthouse_status (ingested data st).lock
      (ingested data st).now).active = false)
    (hp : 10000 < resolved_pizza (ingested data st)) :
    (handle_event data st).1 =
      .ok ((serve_metrics (ingested data st)).1.chaos_score / 2) := by
  rw [handle_event_some data st t ht]
  have hs := (serve_metrics_inactive (ingested data st) hact).2.1
  rw [hs, if_pos hp]
  congr 1
  ring

/-- C10 witness: a chat message posted while the external pizza count is
15000 — the POST answer is half the metrics score over the new state. -/
theorem c10_post_half_witness :
    (handle_event ⟨some "chat_message", none, none⟩
        (⟨none, 1000, 8, some ⟨0, 0, 0⟩, [], [], ⟨none, 0⟩, some 15000, 0, []⟩ :
          AppState)).1 =
      .ok ((serve_metrics (ingested ⟨some "chat_message", none, none⟩
        (⟨none, 1000, 8, some ⟨0, 0, 0⟩, [], [], ⟨none, 0⟩, some 15000, 0, []⟩ :
          AppState))).1.chaos_score / 2) :=
  c10_post_half
    (⟨none, 1000, 8, some ⟨0, 0, 0⟩, [], [], ⟨none, 0⟩, some 15000, 0, []⟩ : AppState)
    ⟨some "chat_message", none, none⟩ "chat_message" rfl (by decide) (by decide)

end Dongometer
